import Mathlib

/-!
Verification of the UnityAid content-schema repository.

The repository declares a Wagtail block catalog (`src/home/blocks.py`) and a
home-page schema (`src/home/models.py`).  The field declarations below are
transcribed from those two files.  The validation, defaulting, persistence and
serialization routines are supplied at runtime by the host framework (Wagtail /
Django), which is not part of the repository; those routines are modelled from
the specification, as marked on each definition.
-/

set_option maxRecDepth 4000

/-- Semantic type of a scalar block field, as declared in `src/home/blocks.py`:
`CharBlock` (with optional `max_length`), `TextBlock`, `ChoiceBlock` (with its
choice codes and optional `default`), `BooleanBlock` (with optional `default`),
`URLBlock`, `ImageChooserBlock`, `PageChooserBlock`. -/
inductive ScalarType where
  | shortText (maxLen : Option Nat)
  | longText
  | choice (codes : List String) (dflt : Option String)
  | boolean (dflt : Option Bool)
  | url
  | imageRef
  | pageRef
  deriving DecidableEq, Repr

/-- A concrete scalar field value: strings for text/choice/url fields, booleans,
and numeric ids for image and page references. -/
inductive SValue where
  | str (s : String)
  | bool (b : Bool)
  | imageRef (id : Nat)
  | pageRef (id : Nat)
  deriving DecidableEq, Repr

/-- A scalar field declaration: name, required flag and scalar type. -/
structure ScalarField where
  name : String
  required : Bool
  ty : ScalarType
  deriving DecidableEq, Repr

/-- The type of a block field: a scalar, or a `ListBlock` of a nested item
block given by that item block's scalar field declarations. -/
inductive FType where
  | scalar (t : ScalarType)
  | listOf (itemFields : List ScalarField)
  deriving DecidableEq, Repr

/-- A block field declaration: name, required flag and field type. -/
structure BField where
  name : String
  required : Bool
  ty : FType
  deriving DecidableEq, Repr

/-- A Block Definition: the ordered list of its field declarations. -/
abbrev BlockDef := List BField

/-- An instance of a nested item block: ordered (field name, scalar value)
pairs. -/
abbrev ItemInstance := List (String × SValue)

/-- A concrete block field value: a scalar, or a list of nested item block
instances. -/
inductive Value where
  | scalar (v : SValue)
  | list (items : List ItemInstance)
  deriving DecidableEq, Repr

/-- A Block Instance: ordered (field name, value) pairs. -/
abbrev BlockInstance := List (String × Value)

/-- A Content Sequence: ordered (kind name, Block Instance) pairs. -/
abbrev ContentSequence := List (String × BlockInstance)

/-- The validation error taxonomy of the spec (`MissingRequiredField`,
`LengthExceeded`, `InvalidChoice`, `UnknownBlockKind`), each scoped to a field
or kind name.  `typeMismatch` totalises the validator on values whose shape
does not match the declared field type; no claim depends on it. -/
inductive VError where
  | missingRequiredField (field : String)
  | lengthExceeded (field : String)
  | invalidChoice (field : String)
  | unknownBlockKind (kind : String)
  | typeMismatch (field : String)
  deriving DecidableEq, Repr

/-- The field (or kind) name a validation error is scoped to. -/
def VError.errField : VError → String
  | .missingRequiredField f => f
  | .lengthExceeded f => f
  | .invalidChoice f => f
  | .unknownBlockKind k => k
  | .typeMismatch f => f

/-- First value bound to key `k` in an association list. -/
def lookupKey (k : String) : List (String × α) → Option α
  | [] => none
  | (k2, v) :: t => if k2 = k then some v else lookupKey k t

/-- Remove every binding of key `k` from an association list. -/
def eraseKey (k : String) : List (String × α) → List (String × α)
  | [] => []
  | (k2, v) :: t => if k2 = k then eraseKey k t else (k2, v) :: eraseKey k t

/-- Modelled from the spec: the default value a field's declaration supplies
when the field is absent (hero `height` defaults to `"full"`, section header
`centered` defaults to `true`, project `status` defaults to `"Active"`). -/
def ScalarType.defaultValue : ScalarType → Option SValue
  | .choice _ (some d) => some (.str d)
  | .boolean (some b) => some (.bool b)
  | _ => none

/-- Modelled from the spec: validate one present scalar value against its
declared type — max-length check for short text, membership check for
enumerated choices. -/
def checkScalar (fname : String) (t : ScalarType) (v : SValue) : List VError :=
  match t, v with
  | .shortText (some m), .str s => if m < s.length then [.lengthExceeded fname] else []
  | .shortText none, .str _ => []
  | .longText, .str _ => []
  | .choice codes _, .str s => if codes.contains s then [] else [.invalidChoice fname]
  | .boolean _, .bool _ => []
  | .url, .str _ => []
  | .imageRef, .imageRef _ => []
  | .pageRef, .pageRef _ => []
  | _, _ => [.typeMismatch fname]

/-- Modelled from the spec: validate one scalar field of a nested item block
against a (possibly absent) looked-up value. -/
def checkScalarFieldV (f : ScalarField) : Option SValue → List VError
  | some v => checkScalar f.name f.ty v
  | none =>
    match f.ty.defaultValue with
    | some _ => []
    | none => if f.required then [.missingRequiredField f.name] else []

/-- Modelled from the spec: validate a nested item block instance against the
item block's scalar field declarations, concatenating per-field errors. -/
def validateItem (fields : List ScalarField) (inst : ItemInstance) : List VError :=
  match fields with
  | [] => []
  | f :: t => checkScalarFieldV f (lookupKey f.name inst) ++ validateItem t inst

/-- Modelled from the spec: validate a list of nested item block instances,
concatenating per-item errors. -/
def validateItems (itemFields : List ScalarField) : List ItemInstance → List VError
  | [] => []
  | i :: rest => validateItem itemFields i ++ validateItems itemFields rest

/-- Modelled from the spec: validate one block field against a (possibly
absent) looked-up value.  An absent field with a declared default is accepted;
an absent required field without a default is `MissingRequiredField`; a present
value is checked against the declared type, recursing into list fields. -/
def checkFieldV (f : BField) : Option Value → List VError
  | some (.scalar v) =>
    match f.ty with
    | .scalar t => checkScalar f.name t v
    | .listOf _ => [.typeMismatch f.name]
  | some (.list items) =>
    match f.ty with
    | .scalar _ => [.typeMismatch f.name]
    | .listOf itemFields => validateItems itemFields items
  | none =>
    match f.ty with
    | .scalar t =>
      match t.defaultValue with
      | some _ => []
      | none => if f.required then [.missingRequiredField f.name] else []
    | .listOf _ => if f.required then [.missingRequiredField f.name] else []

/-- Modelled from the spec: validate one field of a block instance. -/
def checkField (inst : BlockInstance) (f : BField) : List VError :=
  checkFieldV f (lookupKey f.name inst)

/-- Modelled from the spec: validate a block instance against a Block
Definition, concatenating the per-field error sets. -/
def validateBlock (d : BlockDef) (inst : BlockInstance) : List VError :=
  match d with
  | [] => []
  | f :: t => checkField inst f ++ validateBlock t inst

/-- A field that validation can report as missing: its required flag is set
and its declaration supplies no default (the spec's §7: a field with an
explicit default is filled in when absent instead of erroring). -/
def BField.strictlyRequired (f : BField) : Bool :=
  f.required && (match f.ty with
    | .scalar t => t.defaultValue.isNone
    | .listOf _ => true)

/-- Lift the scalar field declarations of an item block to a Block Definition,
for item blocks that also appear as top-level stream blocks. -/
def liftBlock (fs : List ScalarField) : BlockDef :=
  fs.map (fun f => ⟨f.name, f.required, .scalar f.ty⟩)

/-! ## The block catalog, transcribed from `src/home/blocks.py` -/

/-- `HeroBlock` (`src/home/blocks.py:37`). -/
def HeroBlock : BlockDef :=
  [⟨"title", true, .scalar (.shortText none)⟩,
   ⟨"subtitle", false, .scalar .longText⟩,
   ⟨"background_image", true, .scalar .imageRef⟩,
   ⟨"primary_button_text", false, .scalar (.shortText none)⟩,
   ⟨"secondary_button_text", false, .scalar (.shortText none)⟩,
   ⟨"primary_button_link", false, .scalar .pageRef⟩,
   ⟨"secondary_button_link", false, .scalar .pageRef⟩,
   ⟨"height", true, .scalar (.choice ["full", "medium", "small"] (some "full"))⟩]

/-- The scalar fields of `StatsBlock` (`src/home/blocks.py:90`). -/
def StatsBlockFields : List ScalarField :=
  [⟨"icon_name", true, .choice ["users", "utensils", "heart", "globe"] none⟩,
   ⟨"number", true, .shortText (some 20)⟩,
   ⟨"label", true, .shortText (some 50)⟩,
   ⟨"suffix", false, .shortText (some 5)⟩]

/-- `StatsBlock` as a top-level stream block. -/
def StatsBlock : BlockDef := liftBlock StatsBlockFields

/-- `ImpactStatisticBlock` (`src/home/blocks.py:130`). -/
def ImpactStatisticBlock : BlockDef :=
  [⟨"section_title", true, .scalar (.shortText (some 100))⟩,
   ⟨"section_subtitle", false, .scalar .longText⟩,
   ⟨"stats", true, .listOf StatsBlockFields⟩]

/-- `SectionHeaderBlock` (`src/home/blocks.py:158`). -/
def SectionHeaderBlock : BlockDef :=
  [⟨"title", true, .scalar (.shortText none)⟩,
   ⟨"subtitle", false, .scalar .longText⟩,
   ⟨"centered", false, .scalar (.boolean (some true))⟩]

/-- The scalar fields of `ProjectCardBlock` (`src/home/blocks.py:190`). -/
def ProjectCardBlockFields : List ScalarField :=
  [⟨"image", true, .imageRef⟩,
   ⟨"title", true, .shortText (some 200)⟩,
   ⟨"location", true, .shortText (some 100)⟩,
   ⟨"description", true, .longText⟩,
   ⟨"status", true, .choice ["Active", "Ongoing", "Completed"] (some "Active")⟩,
   ⟨"link", false, .url⟩]

/-- `ProjectCardBlock` as a top-level stream block. -/
def ProjectCardBlock : BlockDef := liftBlock ProjectCardBlockFields

/-- `ProjectCardsBlock` (`src/home/blocks.py:236`). -/
def ProjectCardsBlock : BlockDef :=
  [⟨"section_title", false, .scalar (.shortText (some 200))⟩,
   ⟨"section_subtitle", false, .scalar .longText⟩,
   ⟨"projects", true, .listOf ProjectCardBlockFields⟩]

/-- The Block Definitions of the catalog. -/
def catalogDefs : List BlockDef :=
  [HeroBlock, StatsBlock, ImpactStatisticBlock, SectionHeaderBlock,
   ProjectCardBlock, ProjectCardsBlock]

/-! ## The page schema, transcribed from `src/home/models.py` -/

/-- The names the blocks module (`src/home/blocks.py`) defines at top level. -/
def blocksModuleDefinedNames : List String :=
  ["HeroBlock", "StatsBlock", "ImpactStatisticBlock", "SectionHeaderBlock",
   "ProjectCardBlock", "ProjectCardsBlock"]

/-- The names `src/home/models.py:40` imports from the blocks module. -/
def modelsImportedNames : List String :=
  ["HeroBlock", "StatsBlock", "ImpactStatisticBlock", "SectionHeaderBlock",
   "ProjectCardBlock", "ProjectCardsBlock", "TeamMemberBlock", "TeamSectionBlock"]

/-- Whether every name the page-schema module imports from the blocks module
is actually defined there; when false, evaluating the module's imports fails
and no usable schema is produced. -/
def importsResolve : Bool :=
  modelsImportedNames.all (fun n => blocksModuleDefinedNames.contains n)

/-- The usable allowed-kinds mapping of `HomePage.content`
(`src/home/models.py:73`).  The declared `team_member` and `team_section`
entries are omitted because their block definitions do not exist in the blocks
module (the spec's §9 open question); they cannot contribute a resolvable
Block Definition. -/
def allowedKinds : List (String × BlockDef) :=
  [("hero_section", HeroBlock),
   ("section_header", SectionHeaderBlock),
   ("stats", StatsBlock),
   ("impact_statistic", ImpactStatisticBlock),
   ("project_card", ProjectCardBlock),
   ("project_cards", ProjectCardsBlock)]

/-- Modelled from the spec: validate one (kind, instance) pair of a Content
Sequence — an unresolvable kind is `UnknownBlockKind`, otherwise the instance
is validated against the kind's Block Definition. -/
def checkPair (p : String × BlockInstance) : List VError :=
  match lookupKey p.1 allowedKinds with
  | none => [.unknownBlockKind p.1]
  | some d => validateBlock d p.2

/-- Modelled from the spec: validate a Content Sequence against the page
schema, concatenating per-pair errors. -/
def validateSequence : ContentSequence → List VError
  | [] => []
  | p :: t => checkPair p ++ validateSequence t

/-- Modelled from the spec: the save operation is all-or-nothing — a sequence
with validation errors leaves the stored page state unchanged and reports the
errors; a valid sequence replaces the stored state. -/
def savePage (stored : Option ContentSequence) (seq : ContentSequence) :
    Option ContentSequence × List VError :=
  if validateSequence seq = [] then (some seq, []) else (stored, validateSequence seq)

/-- Modelled from the spec: the effective stored value of a block field —
the present value if any, otherwise the field declaration's default. -/
def effectiveScalar (d : BlockDef) (inst : BlockInstance) (fname : String) : Option Value :=
  match lookupKey fname inst with
  | some v => some v
  | none =>
    match d.find? (fun f => f.name == fname) with
    | some f =>
      match f.ty with
      | .scalar t => Option.map Value.scalar t.defaultValue
      | .listOf _ => none
    | none => none

/-! ## Page-level scalar fields (`src/home/models.py:90`) -/

/-- `HomePage.subtitle` max length (`src/home/models.py:91`). -/
def subtitleMaxLength : Nat := 255

/-- `HomePage.subtitle` allows blank values (`src/home/models.py:92`). -/
def subtitleBlank : Bool := true

/-- `HomePage.subtitle` allows null (`src/home/models.py:93`). -/
def subtitleNull : Bool := true

/-- Modelled from the spec: validation of the page-level `subtitle` scalar.
`none` is an absent value, `some none` a null value, `some (some s)` a string.
Absent and null are accepted by the `blank`/`null` declarations; a string is
checked against the declared max length. -/
def validateSubtitle : Option (Option String) → List VError
  | none => if subtitleBlank then [] else [.missingRequiredField "subtitle"]
  | some none => if subtitleNull then [] else [.missingRequiredField "subtitle"]
  | some (some s) =>
    if subtitleMaxLength < s.length then [.lengthExceeded "subtitle"] else []

/-! ## Helper lemmas about lookup, erasure and the validators -/

theorem lookupKey_eraseKey_self (k : String) (l : List (String × α)) :
    lookupKey k (eraseKey k l) = none := by
  induction l with
  | nil => rfl
  | cons p t ih =>
    obtain ⟨k2, v⟩ := p
    by_cases h : k2 = k
    · simp [eraseKey, h, ih]
    · simp [eraseKey, lookupKey, h, ih]

theorem lookupKey_eraseKey_ne (k k2 : String) (l : List (String × α)) (h : k2 ≠ k) :
    lookupKey k2 (eraseKey k l) = lookupKey k2 l := by
  induction l with
  | nil => rfl
  | cons p t ih =>
    obtain ⟨k3, v⟩ := p
    by_cases h3 : k3 = k
    · subst h3
      have h6 : ¬ k3 = k2 := fun hc => h hc.symm
      simp [eraseKey, lookupKey, h6, ih]
    · by_cases h4 : k3 = k2
      · subst h4
        simp [eraseKey, lookupKey, h3, ih]
      · simp [eraseKey, lookupKey, h3, h4, ih]

theorem checkFieldV_none (f : BField) :
    checkFieldV f none =
      if f.strictlyRequired = true then [VError.missingRequiredField f.name] else [] := by
  obtain ⟨n, r, ty⟩ := f
  cases ty with
  | scalar t =>
    cases t with
    | shortText ml =>
      cases r <;> simp [checkFieldV, BField.strictlyRequired, ScalarType.defaultValue]
    | longText =>
      cases r <;> simp [checkFieldV, BField.strictlyRequired, ScalarType.defaultValue]
    | choice codes dflt =>
      cases dflt <;> cases r <;>
        simp [checkFieldV, BField.strictlyRequired, ScalarType.defaultValue]
    | boolean dflt =>
      cases dflt <;> cases r <;>
        simp [checkFieldV, BField.strictlyRequired, ScalarType.defaultValue]
    | url =>
      cases r <;> simp [checkFieldV, BField.strictlyRequired, ScalarType.defaultValue]
    | imageRef =>
      cases r <;> simp [checkFieldV, BField.strictlyRequired, ScalarType.defaultValue]
    | pageRef =>
      cases r <;> simp [checkFieldV, BField.strictlyRequired, ScalarType.defaultValue]
  | listOf itemFields =>
    cases r <;> simp [checkFieldV, BField.strictlyRequired]

theorem validateBlock_eq_nil (d : BlockDef) (inst : BlockInstance) :
    validateBlock d inst = [] ↔ ∀ f ∈ d, checkField inst f = [] := by
  induction d with
  | nil => simp [validateBlock]
  | cons g t ih => simp [validateBlock, ih]

theorem checkField_eraseKey_ne (inst : BlockInstance) (f : BField) (k : String)
    (h : f.name ≠ k) :
    checkField (eraseKey k inst) f = checkField inst f := by
  unfold checkField
  rw [lookupKey_eraseKey_ne k f.name inst h]

theorem validateBlock_erase_strict (d : BlockDef) (f : BField) (inst : BlockInstance)
    (hnd : (d.map BField.name).Nodup) (hf : f ∈ d)
    (hs : f.strictlyRequired = true)
    (hok : ∀ g ∈ d, checkField inst g = []) :
    validateBlock d (eraseKey f.name inst) = [VError.missingRequiredField f.name] := by
  induction d with
  | nil => cases hf
  | cons g t ih =>
    rcases List.mem_cons.mp hf with rfl | hft
    · have h1 : checkField (eraseKey f.name inst) f = [VError.missingRequiredField f.name] := by
        unfold checkField
        rw [lookupKey_eraseKey_self, checkFieldV_none, if_pos hs]
      have h2 : validateBlock t (eraseKey f.name inst) = [] := by
        rw [validateBlock_eq_nil]
        intro g hg
        have hne : g.name ≠ f.name := by
          intro hc
          have hmem : f.name ∈ t.map BField.name := hc ▸ List.mem_map_of_mem BField.name hg
          exact (List.nodup_cons.mp hnd).1 hmem
        rw [checkField_eraseKey_ne _ _ _ hne]
        exact hok g (List.mem_cons_of_mem _ hg)
      simp [validateBlock, h1, h2]
    · have hgne : g.name ≠ f.name := by
        intro hc
        have hmem : g.name ∈ t.map BField.name := by
          rw [hc]
          exact List.mem_map_of_mem BField.name hft
        exact (List.nodup_cons.mp hnd).1 hmem
      have h1 : checkField (eraseKey f.name inst) g = [] := by
        rw [checkField_eraseKey_ne _ _ _ hgne]
        exact hok g (List.mem_cons_self g t)
      have h2 := ih (List.nodup_cons.mp hnd).2 hft
        (fun g2 hg2 => hok g2 (List.mem_cons_of_mem _ hg2))
      simp [validateBlock, h1, h2]

theorem mem_validateBlock_of_mem_checkField {e : VError} {d : BlockDef}
    {inst : BlockInstance} {f : BField} (hf : f ∈ d) (he : e ∈ checkField inst f) :
    e ∈ validateBlock d inst := by
  induction d with
  | nil => cases hf
  | cons g t ih =>
    rcases List.mem_cons.mp hf with rfl | hft
    · simp only [validateBlock, List.mem_append]
      exact Or.inl he
    · simp only [validateBlock, List.mem_append]
      exact Or.inr (ih hft)

theorem exists_field_of_mem_validateBlock {e : VError} {d : BlockDef} {inst : BlockInstance}
    (he : e ∈ validateBlock d inst) : ∃ f ∈ d, e ∈ checkField inst f := by
  induction d with
  | nil => cases he
  | cons g t ih =>
    rcases List.mem_append.mp he with h | h
    · exact ⟨g, List.mem_cons_self g t, h⟩
    · obtain ⟨f, hf, hef⟩ := ih h
      exact ⟨f, List.mem_cons_of_mem _ hf, hef⟩

theorem errField_checkScalar (n : String) (t : ScalarType) (v : SValue) :
    ∀ e ∈ checkScalar n t v, e.errField = n := by
  unfold checkScalar
  repeat' split
  all_goals simp [VError.errField]

theorem errField_checkFieldV_scalar (f : BField) (t : ScalarType) (hty : f.ty = .scalar t)
    (o : Option Value) : ∀ e ∈ checkFieldV f o, e.errField = f.name := by
  cases o with
  | none =>
    rw [checkFieldV_none]
    split
    · simp [VError.errField]
    · simp
  | some v =>
    cases v with
    | scalar sv =>
      simp only [checkFieldV, hty]
      exact errField_checkScalar f.name t sv
    | list items =>
      simp [checkFieldV, hty, VError.errField]

theorem unknownKind_mem_validateSequence (seq : ContentSequence) (k : String)
    (b : BlockInstance) (hmem : (k, b) ∈ seq) (hk : lookupKey k allowedKinds = none) :
    VError.unknownBlockKind k ∈ validateSequence seq := by
  induction seq with
  | nil => cases hmem
  | cons p t ih =>
    rcases List.mem_cons.mp hmem with rfl | h
    · simp [validateSequence, checkPair, hk]
    · simp only [validateSequence, List.mem_append]
      exact Or.inr (ih h)

/-! ## Persisted representation (modelled from the spec's §6: an ordered list
of tagged records `(kind, value)` with per-field scalar values) -/

/-- A structured serialized document. -/
inductive Json where
  | str (s : String)
  | num (n : Nat)
  | bool (b : Bool)
  | arr (xs : List Json)
  | obj (fields : List (String × Json))

/-- Modelled from the spec: serialize one scalar value. -/
def sValueToJson : SValue → Json
  | .str s => .str s
  | .bool b => .bool b
  | .imageRef n => .num n
  | .pageRef n => .num n

/-- Modelled from the spec: serialize a nested item block instance. -/
def itemToJson (i : ItemInstance) : Json :=
  .obj (i.map (fun p => (p.1, sValueToJson p.2)))

/-- Modelled from the spec: serialize one block field value. -/
def valueToJson : Value → Json
  | .scalar v => sValueToJson v
  | .list items => .arr (items.map itemToJson)

/-- Modelled from the spec: serialize one (kind, instance) pair as the tagged
record `{kind: <kind name>, value: {field: value, ...}}`. -/
def pairToJson (p : String × BlockInstance) : Json :=
  .obj [("kind", .str p.1), ("value", .obj (p.2.map (fun q => (q.1, valueToJson q.2))))]

/-- Modelled from the spec: serialize a Content Sequence as an ordered list of
tagged records. -/
def sequenceToJson (seq : ContentSequence) : Json :=
  .arr (seq.map pairToJson)

/-- Modelled from the spec: deserialize one scalar value, directed by the
declared scalar type. -/
def sValueFromJson (t : ScalarType) (j : Json) : Option SValue :=
  match t, j with
  | .shortText _, .str s => some (.str s)
  | .longText, .str s => some (.str s)
  | .choice _ _, .str s => some (.str s)
  | .boolean _, .bool b => some (.bool b)
  | .url, .str s => some (.str s)
  | .imageRef, .num n => some (.imageRef n)
  | .pageRef, .num n => some (.pageRef n)
  | _, _ => none

/-- Modelled from the spec: deserialize a nested item block instance, directed
by the item block's field declarations. -/
def itemFromJson (fields : List ScalarField) : Json → Option ItemInstance
  | .obj kvs =>
    kvs.mapM (fun p =>
      match fields.find? (fun f => f.name == p.1) with
      | some f => (sValueFromJson f.ty p.2).map (fun v => (p.1, v))
      | none => none)
  | _ => none

/-- Modelled from the spec: deserialize one block field value, directed by the
declared field type. -/
def valueFromJson (ft : FType) (j : Json) : Option Value :=
  match ft, j with
  | .scalar t, j2 => (sValueFromJson t j2).map Value.scalar
  | .listOf fields, .arr xs => (xs.mapM (itemFromJson fields)).map Value.list
  | .listOf _, _ => none

/-- Modelled from the spec: deserialize a block instance, directed by its
Block Definition. -/
def blockInstFromJson (d : BlockDef) : Json → Option BlockInstance
  | .obj kvs =>
    kvs.mapM (fun p =>
      match d.find? (fun f => f.name == p.1) with
      | some f => (valueFromJson f.ty p.2).map (fun v => (p.1, v))
      | none => none)
  | _ => none

/-- Modelled from the spec: deserialize one tagged record, resolving the kind
name through the page schema's allowed-kinds mapping. -/
def pairFromJson (j : Json) : Option (String × BlockInstance) :=
  match j with
  | .obj [("kind", .str k), ("value", v)] =>
    match lookupKey k allowedKinds with
    | some d => (blockInstFromJson d v).map (fun i => (k, i))
    | none => none
  | _ => none

/-- Modelled from the spec: deserialize a Content Sequence. -/
def sequenceFromJson (j : Json) : Option ContentSequence :=
  match j with
  | .arr xs => xs.mapM pairFromJson
  | _ => none

/-! ## The spec's end-to-end example page (§8) -/

/-- The hero instance of the spec's example:
`{title:"Welcome", background_image: <ref#1>, height:"medium"}`. -/
def heroExample : BlockInstance :=
  [("title", .scalar (.str "Welcome")),
   ("background_image", .scalar (.imageRef 1)),
   ("height", .scalar (.str "medium"))]

/-- The statistics-section instance of the spec's example:
`{section_title:"Our Impact", stats:[{icon_name:"users", number:"500",
label:"People Helped"}]}`. -/
def impactExample : BlockInstance :=
  [("section_title", .scalar (.str "Our Impact")),
   ("stats", .list [[("icon_name", .str "users"), ("number", .str "500"),
                     ("label", .str "People Helped")]])]

/-- The spec's example Content Sequence, with the kind names exactly as the
spec writes them. -/
def examplePage : ContentSequence :=
  [("hero_section", heroExample), ("stats", impactExample)]

/-- The example Content Sequence with the second pair's kind name corrected to
`impact_statistic`, the kind `HomePage.content` maps to the block whose fields
the instance carries. -/
def amendedExamplePage : ContentSequence :=
  [("hero_section", heroExample), ("impact_statistic", impactExample)]

/-! ## Claims -/

/-- C1 (counterexample): the spec's example Content Sequence, with kind name
`stats` on its second pair exactly as the spec writes it, does not validate
successfully: `HomePage.content` maps the kind `stats` to the Stat item block,
whose required fields `icon_name`, `number` and `label` the example instance
lacks, so validation reports three `MissingRequiredField` errors instead of
succeeding. -/
theorem C1_example_as_stated_fails :
    validateSequence examplePage =
      [VError.missingRequiredField "icon_name", VError.missingRequiredField "number",
       VError.missingRequiredField "label"] ∧
    validateSequence examplePage ≠ [] :=
  ⟨by decide, by decide⟩

/-- C1 (amended): the example page with the second pair's kind corrected from
`stats` to `impact_statistic` — the kind whose Block Definition the instance's
fields actually match — validates successfully against the allowed-kinds
mapping and the Block Catalog, and serializing it and deserializing it yields
an identical structure. -/
theorem C1_amended_example_ok :
    validateSequence amendedExamplePage = [] ∧
    sequenceFromJson (sequenceToJson amendedExamplePage) = some amendedExamplePage :=
  ⟨by decide, by decide⟩

/-- C2: the page-schema module imports `TeamMemberBlock` and
`TeamSectionBlock` from the blocks module, but the blocks module defines
neither name, so resolving the page-schema module's imports fails rather than
producing a usable schema. -/
theorem C2_page_schema_imports_unresolved :
    importsResolve = false ∧
    "TeamMemberBlock" ∈ modelsImportedNames ∧
    "TeamSectionBlock" ∈ modelsImportedNames ∧
    "TeamMemberBlock" ∉ blocksModuleDefinedNames ∧
    "TeamSectionBlock" ∉ blocksModuleDefinedNames :=
  ⟨rfl, by decide, by decide, by decide, by decide⟩

/-- C3: a Content Sequence containing a pair whose kind name is not in the
page schema's allowed-kinds mapping is rejected with `UnknownBlockKind`, and
the save operation is all-or-nothing — the stored page state is unchanged and
the whole error set is reported, so no instance of the sequence is
persisted. -/
theorem C3_unknown_kind_rejected (stored : Option ContentSequence)
    (seq : ContentSequence) (k : String) (b : BlockInstance)
    (hmem : (k, b) ∈ seq) (hk : lookupKey k allowedKinds = none) :
    VError.unknownBlockKind k ∈ validateSequence seq ∧
    (savePage stored seq).1 = stored ∧
    (savePage stored seq).2 = validateSequence seq := by
  have h1 := unknownKind_mem_validateSequence seq k b hmem hk
  have h2 : validateSequence seq ≠ [] := List.ne_nil_of_mem h1
  refine ⟨h1, ?_, ?_⟩ <;> simp [savePage, h2]

/-- Witness for C3 at a concrete input: the declared-but-unresolvable kind
`team_member` in a one-element sequence is rejected and leaves a stored page
unchanged. -/
theorem C3_unknown_kind_rejected_witness :
    VError.unknownBlockKind "team_member" ∈ validateSequence [("team_member", [])] ∧
    (savePage (some [("hero_section", heroExample)]) [("team_member", [])]).1 =
      some [("hero_section", heroExample)] := by
  have h := C3_unknown_kind_rejected (some [("hero_section", heroExample)])
    [("team_member", [])] "team_member" [] (by decide) (by decide)
  exact ⟨h.1, h.2.1⟩

/-- C8: for every Block Definition in the catalog, the field names declared
within that block are pairwise distinct. -/
theorem C8_field_names_unique :
    ∀ d ∈ catalogDefs, (d.map BField.name).Nodup := by decide

/-- Witness for C8 at a concrete input: the hero block's field names are
pairwise distinct. -/
theorem C8_field_names_unique_witness :
    HeroBlock ∈ catalogDefs ∧ (HeroBlock.map BField.name).Nodup :=
  ⟨by decide, C8_field_names_unique HeroBlock (by decide)⟩

/-- C9: the allowed-kinds mapping admits the Stat item block (kind `stats`)
and the Project card item block (kind `project_card`) as standalone top-level
entries, and the same item field declarations also appear nested as the list
fields of the Impact statistics section and the Project cards section. -/
theorem C9_item_blocks_standalone :
    lookupKey "stats" allowedKinds = some StatsBlock ∧
    lookupKey "project_card" allowedKinds = some ProjectCardBlock ∧
    (ImpactStatisticBlock.find? (fun f => f.name == "stats")).map BField.ty =
      some (.listOf StatsBlockFields) ∧
    (ProjectCardsBlock.find? (fun f => f.name == "projects")).map BField.ty =
      some (.listOf ProjectCardBlockFields) ∧
    StatsBlock = liftBlock StatsBlockFields ∧
    ProjectCardBlock = liftBlock ProjectCardBlockFields :=
  ⟨by decide, by decide, by decide, by decide, rfl, rfl⟩

/-- C10: the page-level `subtitle` scalar is optional — an absent, null or
empty value validates — and any string strictly longer than 255 characters is
rejected with `LengthExceeded`. -/
theorem C10_subtitle_optional_bounded :
    (validateSubtitle none = [] ∧ validateSubtitle (some none) = [] ∧
     validateSubtitle (some (some "")) = []) ∧
    ∀ s : String, 255 < s.length →
      validateSubtitle (some (some s)) = [VError.lengthExceeded "subtitle"] := by
  refine ⟨⟨rfl, rfl, rfl⟩, ?_⟩
  intro s h
  simp [validateSubtitle, subtitleMaxLength, h]

/-- Witness for C10 at a concrete input: a 256-character subtitle is rejected
with `LengthExceeded`. -/
theorem C10_subtitle_optional_bounded_witness :
    255 < (String.mk (List.replicate 256 'a')).length ∧
    validateSubtitle (some (some (String.mk (List.replicate 256 'a')))) =
      [VError.lengthExceeded "subtitle"] :=
  ⟨by decide, C10_subtitle_optional_bounded.2 (String.mk (List.replicate 256 'a')) (by decide)⟩

/-- C4: for every Block Definition in the catalog: (a) starting from an
instance that validates successfully, omitting exactly one required
(non-defaulted) field makes validation fail with `MissingRequiredField`
scoped to exactly that field and no other error; (b) an instance whose every
required field is present and whose every present value passes its declared
per-field constraints validates successfully. -/
theorem C4_required_field_omission (d : BlockDef) (hd : d ∈ catalogDefs)
    (inst : BlockInstance) :
    (validateBlock d inst = [] →
      ∀ f ∈ d, f.strictlyRequired = true →
        validateBlock d (eraseKey f.name inst) = [VError.missingRequiredField f.name]) ∧
    ((∀ f ∈ d, f.strictlyRequired = true → (lookupKey f.name inst).isSome = true) →
     (∀ f ∈ d, ∀ v, lookupKey f.name inst = some v → checkFieldV f (some v) = []) →
     validateBlock d inst = []) := by
  have hnd : (d.map BField.name).Nodup := by
    simp only [catalogDefs, List.mem_cons, List.not_mem_nil, or_false] at hd
    rcases hd with rfl | rfl | rfl | rfl | rfl | rfl <;> decide
  constructor
  · intro hv f hf hs
    exact validateBlock_erase_strict d f inst hnd hf hs ((validateBlock_eq_nil d inst).mp hv)
  · intro hpres hval
    rw [validateBlock_eq_nil]
    intro f hf
    unfold checkField
    cases ho : lookupKey f.name inst with
    | some v => exact hval f hf v ho
    | none =>
      rw [checkFieldV_none, if_neg]
      intro hs
      have hsome := hpres f hf hs
      rw [ho] at hsome
      simp at hsome

/-- Witness for C4 at a concrete input: a valid Stat item instance loses
exactly its `number` field and validation reports `MissingRequiredField` for
`number` alone; the full instance validates successfully. -/
theorem C4_required_field_omission_witness :
    validateBlock StatsBlock
      [("icon_name", .scalar (.str "users")), ("number", .scalar (.str "500")),
       ("label", .scalar (.str "People Helped"))] = [] ∧
    validateBlock StatsBlock
      (eraseKey "number"
        [("icon_name", .scalar (.str "users")), ("number", .scalar (.str "500")),
         ("label", .scalar (.str "People Helped"))]) =
      [VError.missingRequiredField "number"] := by
  constructor
  · exact (C4_required_field_omission StatsBlock (by decide)
      [("icon_name", .scalar (.str "users")), ("number", .scalar (.str "500")),
       ("label", .scalar (.str "People Helped"))]).2 (by decide) (by decide)
  · exact (C4_required_field_omission StatsBlock (by decide)
      [("icon_name", .scalar (.str "users")), ("number", .scalar (.str "500")),
       ("label", .scalar (.str "People Helped"))]).1 (by decide)
      ⟨"number", true, .scalar (.shortText (some 20))⟩ (by decide) (by decide)

/-- C5: for a Stat item instance carrying a `number` string: a value strictly
longer than 20 characters makes validation report `LengthExceeded` on
`number`; a value of exactly 20 characters passes, and the instance validates
successfully when its other fields are valid. -/
theorem C5_stat_number_length (inst : BlockInstance) (s : String)
    (hlook : lookupKey "number" inst = some (.scalar (.str s))) :
    (20 < s.length →
      VError.lengthExceeded "number" ∈ validateBlock StatsBlock inst) ∧
    (s.length = 20 →
      (∀ f ∈ StatsBlock, f.name ≠ "number" → checkField inst f = []) →
      validateBlock StatsBlock inst = []) := by
  constructor
  · intro hlen
    have hf : (⟨"number", true, .scalar (.shortText (some 20))⟩ : BField) ∈ StatsBlock := by
      decide
    apply mem_validateBlock_of_mem_checkField hf
    show VError.lengthExceeded "number" ∈
      checkFieldV ⟨"number", true, .scalar (.shortText (some 20))⟩ (lookupKey "number" inst)
    rw [hlook]
    simp [checkFieldV, checkScalar, hlen]
  · intro hlen hothers
    rw [validateBlock_eq_nil]
    intro f hf
    have hc : f = (⟨"icon_name", true,
          .scalar (.choice ["users", "utensils", "heart", "globe"] none)⟩ : BField) ∨
        f = ⟨"number", true, .scalar (.shortText (some 20))⟩ ∨
        f = ⟨"label", true, .scalar (.shortText (some 50))⟩ ∨
        f = ⟨"suffix", false, .scalar (.shortText (some 5))⟩ := by
      simpa [StatsBlock, StatsBlockFields, liftBlock] using hf
    rcases hc with rfl | rfl | rfl | rfl
    · exact hothers _ hf (by decide)
    · show checkFieldV ⟨"number", true, .scalar (.shortText (some 20))⟩
        (lookupKey "number" inst) = []
      rw [hlook]
      simp [checkFieldV, checkScalar, hlen]
    · exact hothers _ hf (by decide)
    · exact hothers _ hf (by decide)

/-- Witness for C5 at a concrete input: a 21-character `number` is rejected
with `LengthExceeded` and a 20-character `number` validates. -/
theorem C5_stat_number_length_witness :
    VError.lengthExceeded "number" ∈
      validateBlock StatsBlock
        [("icon_name", .scalar (.str "users")),
         ("number", .scalar (.str "123456789012345678901")),
         ("label", .scalar (.str "People Helped"))] ∧
    validateBlock StatsBlock
      [("icon_name", .scalar (.str "users")),
       ("number", .scalar (.str "12345678901234567890")),
       ("label", .scalar (.str "People Helped"))] = [] := by
  constructor
  · exact (C5_stat_number_length
      [("icon_name", .scalar (.str "users")),
       ("number", .scalar (.str "123456789012345678901")),
       ("label", .scalar (.str "People Helped"))]
      "123456789012345678901" (by decide)).1 (by decide)
  · exact (C5_stat_number_length
      [("icon_name", .scalar (.str "users")),
       ("number", .scalar (.str "12345678901234567890")),
       ("label", .scalar (.str "People Helped"))]
      "12345678901234567890" (by decide)).2 (by decide) (by decide)

/-- C6: for a Project card instance carrying a `status` string: a value
outside {Active, Ongoing, Completed} makes validation report `InvalidChoice`
on `status`; a value among the three declared codes passes, and the instance
validates successfully when its other fields are valid. -/
theorem C6_project_status_choice (inst : BlockInstance) (s : String)
    (hlook : lookupKey "status" inst = some (.scalar (.str s))) :
    (s ∉ ["Active", "Ongoing", "Completed"] →
      VError.invalidChoice "status" ∈ validateBlock ProjectCardBlock inst) ∧
    (s ∈ ["Active", "Ongoing", "Completed"] →
      (∀ f ∈ ProjectCardBlock, f.name ≠ "status" → checkField inst f = []) →
      validateBlock ProjectCardBlock inst = []) := by
  constructor
  · intro hmem
    have hf : (⟨"status", true,
        .scalar (.choice ["Active", "Ongoing", "Completed"] (some "Active"))⟩ : BField) ∈
        ProjectCardBlock := by decide
    apply mem_validateBlock_of_mem_checkField hf
    show VError.invalidChoice "status" ∈
      checkFieldV ⟨"status", true,
        .scalar (.choice ["Active", "Ongoing", "Completed"] (some "Active"))⟩
        (lookupKey "status" inst)
    rw [hlook]
    simp [checkFieldV, checkScalar, hmem]
  · intro hmem hothers
    rw [validateBlock_eq_nil]
    intro f hf
    have hc : f = (⟨"image", true, .scalar .imageRef⟩ : BField) ∨
        f = ⟨"title", true, .scalar (.shortText (some 200))⟩ ∨
        f = ⟨"location", true, .scalar (.shortText (some 100))⟩ ∨
        f = ⟨"description", true, .scalar .longText⟩ ∨
        f = ⟨"status", true,
          .scalar (.choice ["Active", "Ongoing", "Completed"] (some "Active"))⟩ ∨
        f = ⟨"link", false, .scalar .url⟩ := by
      simpa [ProjectCardBlock, ProjectCardBlockFields, liftBlock] using hf
    rcases hc with rfl | rfl | rfl | rfl | rfl | rfl
    · exact hothers _ hf (by decide)
    · exact hothers _ hf (by decide)
    · exact hothers _ hf (by decide)
    · exact hothers _ hf (by decide)
    · show checkFieldV ⟨"status", true,
          .scalar (.choice ["Active", "Ongoing", "Completed"] (some "Active"))⟩
        (lookupKey "status" inst) = []
      rw [hlook]
      simp [checkFieldV, checkScalar, hmem]
    · exact hothers _ hf (by decide)

/-- Witness for C6 at a concrete input: status `Paused` is rejected with
`InvalidChoice` and status `Ongoing` validates. -/
theorem C6_project_status_choice_witness :
    VError.invalidChoice "status" ∈
      validateBlock ProjectCardBlock
        [("image", .scalar (.imageRef 7)), ("title", .scalar (.str "Well")),
         ("location", .scalar (.str "Kenya")), ("description", .scalar (.str "Water well")),
         ("status", .scalar (.str "Paused"))] ∧
    validateBlock ProjectCardBlock
      [("image", .scalar (.imageRef 7)), ("title", .scalar (.str "Well")),
       ("location", .scalar (.str "Kenya")), ("description", .scalar (.str "Water well")),
       ("status", .scalar (.str "Ongoing"))] = [] := by
  constructor
  · exact (C6_project_status_choice
      [("image", .scalar (.imageRef 7)), ("title", .scalar (.str "Well")),
       ("location", .scalar (.str "Kenya")), ("description", .scalar (.str "Water well")),
       ("status", .scalar (.str "Paused"))] "Paused" (by decide)).1 (by decide)
  · exact (C6_project_status_choice
      [("image", .scalar (.imageRef 7)), ("title", .scalar (.str "Well")),
       ("location", .scalar (.str "Kenya")), ("description", .scalar (.str "Water well")),
       ("status", .scalar (.str "Ongoing"))] "Ongoing" (by decide)).2 (by decide) (by decide)

/-- C7: for every Hero instance in which the `height` field is absent,
validation reports no error scoped to `height`, and the effective stored value
of `height` is `"full"`. -/
theorem C7_hero_height_default (inst : BlockInstance)
    (habs : lookupKey "height" inst = none) :
    (∀ e ∈ validateBlock HeroBlock inst, e.errField ≠ "height") ∧
    effectiveScalar HeroBlock inst "height" = some (.scalar (.str "full")) := by
  constructor
  · intro e he
    obtain ⟨f, hf, hef⟩ := exists_field_of_mem_validateBlock he
    have hc : f = (⟨"title", true, .scalar (.shortText none)⟩ : BField) ∨
        f = ⟨"subtitle", false, .scalar .longText⟩ ∨
        f = ⟨"background_image", true, .scalar .imageRef⟩ ∨
        f = ⟨"primary_button_text", false, .scalar (.shortText none)⟩ ∨
        f = ⟨"secondary_button_text", false, .scalar (.shortText none)⟩ ∨
        f = ⟨"primary_button_link", false, .scalar .pageRef⟩ ∨
        f = ⟨"secondary_button_link", false, .scalar .pageRef⟩ ∨
        f = ⟨"height", true,
          .scalar (.choice ["full", "medium", "small"] (some "full"))⟩ := by
      simpa [HeroBlock] using hf
    rcases hc with rfl | rfl | rfl | rfl | rfl | rfl | rfl | rfl
    · rw [errField_checkFieldV_scalar _ (.shortText none) rfl _ e hef]
      decide
    · rw [errField_checkFieldV_scalar _ .longText rfl _ e hef]
      decide
    · rw [errField_checkFieldV_scalar _ .imageRef rfl _ e hef]
      decide
    · rw [errField_checkFieldV_scalar _ (.shortText none) rfl _ e hef]
      decide
    · rw [errField_checkFieldV_scalar _ (.shortText none) rfl _ e hef]
      decide
    · rw [errField_checkFieldV_scalar _ .pageRef rfl _ e hef]
      decide
    · rw [errField_checkFieldV_scalar _ .pageRef rfl _ e hef]
      decide
    · have hnil : checkField inst
          (⟨"height", true,
            .scalar (.choice ["full", "medium", "small"] (some "full"))⟩ : BField) = [] := by
        show checkFieldV ⟨"height", true,
          .scalar (.choice ["full", "medium", "small"] (some "full"))⟩
          (lookupKey "height" inst) = []
        rw [habs]
        rfl
      rw [hnil] at hef
      cases hef
  · unfold effectiveScalar
    rw [habs]
    rfl

/-- Witness for C7 at a concrete input: an otherwise-empty hero instance with
no `height` binding triggers no height-scoped error and stores height
`"full"`. -/
theorem C7_hero_height_default_witness :
    (∀ e ∈ validateBlock HeroBlock [("title", .scalar (.str "Welcome"))],
      e.errField ≠ "height") ∧
    effectiveScalar HeroBlock [("title", .scalar (.str "Welcome"))] "height" =
      some (.scalar (.str "full")) :=
  C7_hero_height_default [("title", .scalar (.str "Welcome"))] (by decide)
